import Mathlib

/-!
Shallow embedding of the status-monitoring logic of the InsideSales admin
dashboard: the activity-recency classifiers in `SystemStatusSettings.tsx`
(`fetchSystemStats`), `CronJobMonitoring.tsx` (`fetchKeepAliveStatus`) and
`EdgeFunctionMonitor` (`getStatus` inside `fetchFunctionStatuses`), the
per-table count aggregation of `fetchSystemStats`, and the dashboard
widget-customization modal (`DashboardCustomizeModal`).

Numeric conventions: JavaScript timestamps are integer millisecond values
(`Date.prototype.getTime`).  A failed parse (`new Date(bad)`) yields `NaN`,
modelled as `none` in `Option Int`; every JS comparison against `NaN` is
false, which the `jsLt` / `jsGt` helpers reproduce.  `date-fns`
`differenceInHours` divides the millisecond difference by an hour and
truncates toward zero (its default rounding), modelled by `Int.tdiv`.
-/

/-- The status labels produced by the monitoring components. -/
inductive StatusLabel
  | active
  | warning
  | error
  | unknown
  | deprecated
  deriving DecidableEq

/-- A JS number that may be `NaN` (`none`). -/
abbrev JSInt := Option Int

/-- JS `x < c`: false when `x` is `NaN`. -/
def jsLt (x : JSInt) (c : Int) : Bool :=
  match x with
  | none => false
  | some v => decide (v < c)

/-- JS `x > c`: false when `x` is `NaN`. -/
def jsGt (x : JSInt) (c : Int) : Bool :=
  match x with
  | none => false
  | some v => decide (c < v)

/-- JS string truthiness: a string is truthy iff it is non-empty. -/
def jsTruthy (s : String) : Bool :=
  decide (s ≠ "")

/-- Milliseconds per hour, the divisor used by `differenceInHours`. -/
def msPerHour : Int := 1000 * 60 * 60

/-- date-fns `differenceInHours` with the default `trunc` rounding:
truncating division of the millisecond difference; `NaN` propagates. -/
def differenceInHours (laterMs earlierMs : JSInt) : JSInt :=
  match laterMs, earlierMs with
  | some a, some b => some (Int.tdiv (a - b) msPerHour)
  | _, _ => none

/-- The keep-alive part of the view state set by `fetchSystemStats` in
`SystemStatusSettings.tsx` (lines 130-154). -/
structure KeepAliveView where
  lastKeepAlive : Option String
  keepAliveStatus : StatusLabel
  deriving DecidableEq

/-- The keep-alive classifier site of `fetchSystemStats`
(`SystemStatusSettings.tsx` lines 130-154).  `row` models the most recent
`keep_alive` row: `none` when the row is absent (or the read threw, both of
which leave the initial `unknown` in place), `some none` when the
`Able to read DB` column is null, `some (some s)` when it holds `s`.
`parse` models `new Date(s).getTime()` (`none` = Invalid Date). -/
def systemFetchKeepAlive (row : Option (Option String))
    (parse : String → Option Int) (nowMs : Int) : KeepAliveView :=
  match row with
  | some (some s) =>
    if jsTruthy s then
      let hoursAgo := differenceInHours (some nowMs) (parse s)
      if jsLt hoursAgo 25 then ⟨some s, .active⟩
      else if jsLt hoursAgo 48 then ⟨some s, .warning⟩
      else ⟨some s, .error⟩
    else ⟨none, .unknown⟩
  | _ => ⟨none, .unknown⟩

/-- The component state set by `fetchKeepAliveStatus` in
`CronJobMonitoring.tsx`. -/
structure CronKeepAlive where
  lastPing : Option String
  status : StatusLabel
  hoursAgo : JSInt
  deriving DecidableEq

/-- The `if (data && data['Able to read DB'])` body of
`fetchKeepAliveStatus` (`CronJobMonitoring.tsx` lines 55-69): status
starts as `active` and is downgraded by the `> 48` / `> 25` checks. -/
def cronClassifyRow (row : Option (Option String))
    (parse : String → Option Int) (nowMs : Int) : CronKeepAlive :=
  match row with
  | some (some s) =>
    if jsTruthy s then
      let hoursAgo := differenceInHours (some nowMs) (parse s)
      let status : StatusLabel :=
        if jsGt hoursAgo 48 then .error
        else if jsGt hoursAgo 25 then .warning
        else .active
      ⟨some s, status, hoursAgo⟩
    else ⟨none, .unknown, none⟩
  | _ => ⟨none, .unknown, none⟩

/-- `fetchKeepAliveStatus` from `CronJobMonitoring.tsx` (lines 40-76).
`qerr` is the error code of the `keep_alive` read (`none` = no error; the
code `PGRST116` — zero rows from `.single()` — is not treated as a
failure); `row` is as in `systemFetchKeepAlive`. -/
def cronFetchKeepAlive (qerr : Option String) (row : Option (Option String))
    (parse : String → Option Int) (nowMs : Int) : CronKeepAlive :=
  match qerr with
  | some code =>
    if code ≠ "PGRST116" then ⟨none, .error, none⟩
    else cronClassifyRow row parse nowMs
  | none => cronClassifyRow row parse nowMs

/-- Result of `getStatus` in `EdgeFunctionMonitor` (`fetchFunctionStatuses`,
vite bundle lines 142-155). -/
structure FnStatus where
  status : StatusLabel
  lastActivity : Option String
  deriving DecidableEq

/-- `getStatus` from `EdgeFunctionMonitor`: the hour difference is the raw
(untruncated) quotient `(Date.now() - date.getTime()) / (1000*60*60)`,
modelled exactly over `ℚ`; `NaN < 168` is false, so an unparseable date
falls to `unknown`. -/
def getStatus (row : Option (Option String))
    (parse : String → Option Int) (nowMs : Int) : FnStatus :=
  match row with
  | some (some s) =>
    if jsTruthy s then
      match parse s with
      | some t =>
        if ((nowMs - t : Int) : ℚ) / (1000 * 60 * 60) < 168
        then ⟨.active, some s⟩
        else ⟨.unknown, some s⟩
      | none => ⟨.unknown, some s⟩
    else ⟨.unknown, none⟩
  | _ => ⟨.unknown, none⟩

/-! Arithmetic bridge lemmas: the truncating hour count against literal
thresholds, in terms of the millisecond age. -/

theorem tdiv_msPerHour_lt_iff {a : Int} (c : Int) (hc : 0 < c) :
    Int.tdiv a msPerHour < c ↔ a < c * msPerHour := by
  have hH : (0 : Int) < msPerHour := by norm_num [msPerHour]
  rcases le_or_lt 0 a with ha | ha
  · rw [Int.tdiv_eq_ediv ha hH.le, Int.ediv_lt_iff_lt_mul hH]
  · have h1 : 0 ≤ (-a).tdiv msPerHour := Int.tdiv_nonneg (by omega) hH.le
    have h2 : Int.tdiv a msPerHour = -((-a).tdiv msPerHour) := by
      rw [← Int.neg_tdiv, neg_neg]
    have h3 : 0 < c * msPerHour := mul_pos hc hH
    constructor
    · intro _
      linarith
    · intro _
      linarith

theorem le_tdiv_msPerHour_iff {a : Int} (c : Int) (hc : 0 < c) :
    c ≤ Int.tdiv a msPerHour ↔ c * msPerHour ≤ a := by
  have hH : (0 : Int) < msPerHour := by norm_num [msPerHour]
  rcases le_or_lt 0 a with ha | ha
  · rw [Int.tdiv_eq_ediv ha hH.le, Int.le_ediv_iff_mul_le hH]
  · have h1 : 0 ≤ (-a).tdiv msPerHour := Int.tdiv_nonneg (by omega) hH.le
    have h2 : Int.tdiv a msPerHour = -((-a).tdiv msPerHour) := by
      rw [← Int.neg_tdiv, neg_neg]
    have h3 : 0 < c * msPerHour := mul_pos hc hH
    constructor
    · intro h
      linarith
    · intro h
      linarith

theorem lt_tdiv_msPerHour_iff {a : Int} (c : Int) (hc : 0 ≤ c) :
    c < Int.tdiv a msPerHour ↔ (c + 1) * msPerHour ≤ a := by
  rw [Int.lt_iff_add_one_le, le_tdiv_msPerHour_iff (c + 1) (by omega)]

theorem qdiv_hours_lt_iff (a c : Int) :
    ((a : ℚ) / (1000 * 60 * 60) < (c : ℚ)) ↔ a < c * msPerHour := by
  rw [div_lt_iff₀ (by norm_num : (0 : ℚ) < 1000 * 60 * 60)]
  have h : ((c * msPerHour : Int) : ℚ) = (c : ℚ) * (1000 * 60 * 60) := by
    push_cast [msPerHour]
    ring
  rw [← h, Int.cast_lt]

theorem qdiv_hours_lt_168_iff (a : Int) :
    ((a : ℚ) / (1000 * 60 * 60) < 168) ↔ a < 168 * msPerHour := by
  rw [div_lt_iff₀ (by norm_num : (0 : ℚ) < 1000 * 60 * 60)]
  have h : ((168 * msPerHour : Int) : ℚ) = 168 * (1000 * 60 * 60) := by
    push_cast [msPerHour]
    ring
  rw [← h, Int.cast_lt]

/-- Claim C1: for every valid (non-null, truthy, parseable) keep-alive
timestamp, the `fetchSystemStats` classifier in `SystemStatusSettings`
returns `active` when the age at the evaluation instant is strictly below
25 hours, `warning` when it is at least 25 and strictly below 48 hours,
and `error` when it is at least 48 hours. -/
theorem systemKeepAliveThresholds (s : String) (parse : String → Option Int)
    (nowMs t : Int) (hs : s ≠ "") (hp : parse s = some t) :
    ((systemFetchKeepAlive (some (some s)) parse nowMs).keepAliveStatus = StatusLabel.active
        ↔ nowMs - t < 25 * msPerHour) ∧
    ((systemFetchKeepAlive (some (some s)) parse nowMs).keepAliveStatus = StatusLabel.warning
        ↔ 25 * msPerHour ≤ nowMs - t ∧ nowMs - t < 48 * msPerHour) ∧
    ((systemFetchKeepAlive (some (some s)) parse nowMs).keepAliveStatus = StatusLabel.error
        ↔ 48 * msPerHour ≤ nowMs - t) := by
  have hH : (0 : Int) < msPerHour := by norm_num [msPerHour]
  have e25 := tdiv_msPerHour_lt_iff (a := nowMs - t) 25 (by norm_num)
  have e48 := tdiv_msPerHour_lt_iff (a := nowMs - t) 48 (by norm_num)
  have htr : jsTruthy s = true := by
    simp [jsTruthy, hs]
  have key : (systemFetchKeepAlive (some (some s)) parse nowMs).keepAliveStatus =
      (if nowMs - t < 25 * msPerHour then StatusLabel.active
       else if nowMs - t < 48 * msPerHour then StatusLabel.warning
       else StatusLabel.error) := by
    simp only [systemFetchKeepAlive, htr, if_true, hp, differenceInHours, jsLt,
      decide_eq_true_eq, apply_ite KeepAliveView.keepAliveStatus, e25, e48]
  rw [key]
  split_ifs with h1 h2
  · refine ⟨iff_of_true rfl h1, iff_of_false (by decide) ?_, iff_of_false (by decide) ?_⟩
    · intro h
      exact absurd h1 (not_lt.mpr h.1)
    · intro h
      linarith
  · refine ⟨iff_of_false (by decide) h1,
      iff_of_true rfl ⟨not_lt.mp h1, h2⟩, iff_of_false (by decide) ?_⟩
    intro h
    exact absurd h2 (not_lt.mpr h)
  · refine ⟨iff_of_false (by decide) ?_, iff_of_false (by decide) ?_,
      iff_of_true rfl (not_lt.mp h2)⟩
    · intro h
      have h3 := not_lt.mp h2
      linarith
    · intro h
      exact h2 h.2

/-- Witness for `systemKeepAliveThresholds`: a 30-hour-old timestamp (age
108 000 000 ms) is classified `warning`. -/
theorem systemKeepAliveThresholdsWitness :
    (systemFetchKeepAlive (some (some "2024-01-01T00:00:00Z"))
        (fun _ => some 0) 108000000).keepAliveStatus = StatusLabel.warning := by
  have h := systemKeepAliveThresholds "2024-01-01T00:00:00Z" (fun _ => some 0)
      108000000 0 (by decide) rfl
  exact h.2.1.mpr (by norm_num [msPerHour])

/-- Claim C2 as stated fails on the code: at age 25.5 hours (91 800 000
ms, truncated hour count 25) the claim demands `warning`, but the
CronJobMonitoring classifier guards with `hoursAgo > 25` rather than
`>= 25` and returns `active`. -/
theorem cronKeepAliveBoundaryCounterexample :
    (cronFetchKeepAlive none (some (some "x")) (fun _ => some 0) 91800000).status
      = StatusLabel.active ∧
    StatusLabel.active ≠ StatusLabel.warning ∧
    25 * msPerHour ≤ (91800000 : Int) - 0 ∧ (91800000 : Int) - 0 < 48 * msPerHour := by
  refine ⟨rfl, by decide, by norm_num [msPerHour], by norm_num [msPerHour]⟩

/-- Claim C2 amended: because `differenceInHours` truncates and the guards
are strict (`> 48`, `> 25`), the CronJobMonitoring classifier returns
`active` when the age is strictly below 26 hours, `warning` when it is at
least 26 and strictly below 49 hours, and `error` when it is at least 49
hours. -/
theorem cronKeepAliveThresholds (s : String) (parse : String → Option Int)
    (nowMs t : Int) (hs : s ≠ "") (hp : parse s = some t) :
    ((cronFetchKeepAlive none (some (some s)) parse nowMs).status = StatusLabel.active
        ↔ nowMs - t < 26 * msPerHour) ∧
    ((cronFetchKeepAlive none (some (some s)) parse nowMs).status = StatusLabel.warning
        ↔ 26 * msPerHour ≤ nowMs - t ∧ nowMs - t < 49 * msPerHour) ∧
    ((cronFetchKeepAlive none (some (some s)) parse nowMs).status = StatusLabel.error
        ↔ 49 * msPerHour ≤ nowMs - t) := by
  have hH : (0 : Int) < msPerHour := by norm_num [msPerHour]
  have e49 : (48 : Int) < Int.tdiv (nowMs - t) msPerHour ↔ 49 * msPerHour ≤ nowMs - t := by
    have h := lt_tdiv_msPerHour_iff (a := nowMs - t) 48 (by norm_num)
    norm_num at h
    exact h
  have e26 : (25 : Int) < Int.tdiv (nowMs - t) msPerHour ↔ 26 * msPerHour ≤ nowMs - t := by
    have h := lt_tdiv_msPerHour_iff (a := nowMs - t) 25 (by norm_num)
    norm_num at h
    exact h
  have htr : jsTruthy s = true := by
    simp [jsTruthy, hs]
  have key : (cronFetchKeepAlive none (some (some s)) parse nowMs).status =
      (if 49 * msPerHour ≤ nowMs - t then StatusLabel.error
       else if 26 * msPerHour ≤ nowMs - t then StatusLabel.warning
       else StatusLabel.active) := by
    simp only [cronFetchKeepAlive, cronClassifyRow, htr, if_true, hp,
      differenceInHours, jsGt, decide_eq_true_eq,
      apply_ite CronKeepAlive.status, e49, e26]
  rw [key]
  split_ifs with h1 h2
  · refine ⟨iff_of_false (by decide) ?_, iff_of_false (by decide) ?_,
      iff_of_true rfl h1⟩
    · intro h
      linarith
    · intro h
      exact absurd h1 (not_le.mpr h.2)
  · refine ⟨iff_of_false (by decide) ?_, iff_of_true rfl ⟨h2, not_le.mp h1⟩,
      iff_of_false (by decide) h1⟩
    intro h
    exact absurd h2 (not_le.mpr h)
  · refine ⟨iff_of_true rfl (not_le.mp h2), iff_of_false (by decide) ?_,
      iff_of_false (by decide) h1⟩
    intro h
    exact h2 h.1

/-- Witness for `cronKeepAliveThresholds`: a 50-hour-old timestamp (age
180 000 000 ms) is classified `error`. -/
theorem cronKeepAliveThresholdsWitness :
    (cronFetchKeepAlive none (some (some "2024-01-01T00:00:00Z"))
        (fun _ => some 0) 180000000).status = StatusLabel.error := by
  have h := cronKeepAliveThresholds "2024-01-01T00:00:00Z" (fun _ => some 0)
      180000000 0 (by decide) rfl
  exact h.2.2.mpr (by norm_num [msPerHour])

/-- Claim C3 as stated fails on the code: on a malformed (non-null,
truthy, unparseable) timestamp the CronJobMonitoring classifier returns
`active` — every comparison against the NaN hour count is false and the
status variable is initialized to `active` — not `unknown`. -/
theorem malformedTimestampCounterexample :
    (cronFetchKeepAlive none (some (some "not-a-date")) (fun _ => none) 0).status
      = StatusLabel.active ∧
    StatusLabel.active ≠ StatusLabel.unknown :=
  ⟨rfl, by decide⟩

/-- Claim C3 amended: a malformed (non-null, truthy, unparseable)
timestamp string never propagates a parse error, but only `getStatus` in
`EdgeFunctionMonitor` fails closed to `unknown`: the NaN hour count makes
every threshold comparison false, so `SystemStatusSettings` falls through
to `error` and `CronJobMonitoring` keeps its initial `active`. -/
theorem malformedTimestampLabels (s : String) (parse : String → Option Int)
    (nowMs : Int) (hs : s ≠ "") (hp : parse s = none) :
    (systemFetchKeepAlive (some (some s)) parse nowMs).keepAliveStatus = StatusLabel.error ∧
    (cronFetchKeepAlive none (some (some s)) parse nowMs).status = StatusLabel.active ∧
    (getStatus (some (some s)) parse nowMs).status = StatusLabel.unknown := by
  refine ⟨?_, ?_, ?_⟩ <;>
    simp [systemFetchKeepAlive, cronFetchKeepAlive, cronClassifyRow, getStatus,
          jsTruthy, hs, hp, differenceInHours, jsLt, jsGt]

/-- Witness for `malformedTimestampLabels` on a concrete malformed string
and parser. -/
theorem malformedTimestampLabelsWitness :
    (systemFetchKeepAlive (some (some "garbage")) (fun _ => none) 0).keepAliveStatus
        = StatusLabel.error ∧
    (cronFetchKeepAlive none (some (some "garbage")) (fun _ => none) 0).status
        = StatusLabel.active ∧
    (getStatus (some (some "garbage")) (fun _ => none) 0).status = StatusLabel.unknown :=
  malformedTimestampLabels "garbage" (fun _ => none) 0 (by decide) rfl

/-- Claim C4: for every valid (non-null, truthy, parseable) activity
timestamp, `getStatus` in `EdgeFunctionMonitor` returns `active` when the
age at the evaluation instant is strictly below 168 hours (7 days) and
`unknown` otherwise, including at exactly 168 hours. -/
theorem getStatusThreshold (s : String) (parse : String → Option Int)
    (nowMs t : Int) (hs : s ≠ "") (hp : parse s = some t) :
    ((getStatus (some (some s)) parse nowMs).status = StatusLabel.active
        ↔ nowMs - t < 168 * msPerHour) ∧
    ((getStatus (some (some s)) parse nowMs).status = StatusLabel.unknown
        ↔ 168 * msPerHour ≤ nowMs - t) := by
  have htr : jsTruthy s = true := by
    simp [jsTruthy, hs]
  have key : (getStatus (some (some s)) parse nowMs).status =
      (if ((nowMs - t : Int) : ℚ) / (1000 * 60 * 60) < 168
       then StatusLabel.active else StatusLabel.unknown) := by
    simp only [getStatus, htr, if_true, hp, apply_ite FnStatus.status]
  rw [key]
  by_cases h : nowMs - t < 168 * msPerHour
  · rw [if_pos ((qdiv_hours_lt_168_iff _).mpr h)]
    exact ⟨iff_of_true rfl h, iff_of_false (by decide) (not_le.mpr h)⟩
  · rw [if_neg (fun hq => h ((qdiv_hours_lt_168_iff _).mp hq))]
    exact ⟨iff_of_false (by decide) h, iff_of_true rfl (not_lt.mp h)⟩

/-- Witness for `getStatusThreshold`: at exactly 168 hours of age
(604 800 000 ms) the status is `unknown`. -/
theorem getStatusThresholdWitness :
    (getStatus (some (some "2024-01-01T00:00:00Z"))
        (fun _ => some 0) 604800000).status = StatusLabel.unknown := by
  have h := getStatusThreshold "2024-01-01T00:00:00Z" (fun _ => some 0)
      604800000 0 (by decide) rfl
  exact h.2.mpr (by norm_num [msPerHour])

/-- Claim C5: a missing row or a null timestamp yields `unknown` at all
three classifier sites: `fetchSystemStats` leaves `keepAliveStatus` at
`unknown`, `fetchKeepAliveStatus` sets status `unknown`, and `getStatus`
returns `unknown`. -/
theorem nullTimestampYieldsUnknown (parse : String → Option Int) (nowMs : Int) :
    (systemFetchKeepAlive none parse nowMs).keepAliveStatus = StatusLabel.unknown ∧
    (systemFetchKeepAlive (some none) parse nowMs).keepAliveStatus = StatusLabel.unknown ∧
    (cronFetchKeepAlive none none parse nowMs).status = StatusLabel.unknown ∧
    (cronFetchKeepAlive none (some none) parse nowMs).status = StatusLabel.unknown ∧
    (getStatus none parse nowMs).status = StatusLabel.unknown ∧
    (getStatus (some none) parse nowMs).status = StatusLabel.unknown := by
  refine ⟨rfl, rfl, rfl, rfl, rfl, rfl⟩

/-! Per-table count aggregation of `fetchSystemStats`
(`SystemStatusSettings.tsx` lines 74-108). -/

/-- Outcome of one `select count` query: resolved with a (possibly null)
count, resolved with an error field, or rejected (caught by the inner
try/catch). -/
inductive QueryOutcome
  | ok (count : Option Nat)
  | dbError (msg : String)
  | thrown (msg : String)
  deriving DecidableEq

/-- One table's statistics row (the React `icon` node is omitted). -/
structure TableStat where
  table_name : String
  row_count : Nat
  deriving DecidableEq

/-- The nine configured table names of `TABLE_CONFIG`, in source order. -/
def TABLE_CONFIG : List String :=
  ["leads", "contacts", "accounts", "deals", "meetings", "tasks",
   "email_history", "profiles", "notifications"]

/-- One arm of `countPromises`: a failed query (error field or rejection)
contributes a zero-count row plus an error message; a successful one
contributes `count || 0`. -/
def countForTable (name : String) (q : QueryOutcome) : TableStat × Option String :=
  match q with
  | .ok c => (⟨name, c.getD 0⟩, none)
  | .dbError m => (⟨name, 0⟩, some (name ++ ": " ++ m))
  | .thrown m => (⟨name, 0⟩, some (name ++ ": " ++ m))

/-- The table/total/error part of the stats built by `fetchSystemStats`. -/
structure SystemStatsCore where
  tables : List TableStat
  totalRecords : Nat
  queryErrors : List String
  deriving DecidableEq

/-- The JS sort comparator `(a, b) => b.row_count - a.row_count`: `a`
precedes `b` when its count is at least `b`'s (descending order). -/
def byCountDesc (a b : TableStat) : Bool :=
  decide (b.row_count ≤ a.row_count)

/-- The count-aggregation core of `fetchSystemStats`: one query per entry
of `TABLE_CONFIG` (`db` gives each query's outcome), totals accumulated
from the unsorted results, then the table list sorted by record count
descending. -/
def fetchSystemStatsCore (db : String → QueryOutcome) : SystemStatsCore :=
  let results := TABLE_CONFIG.map fun n => countForTable n (db n)
  let tableStats := results.map Prod.fst
  let totalRecords := (tableStats.map TableStat.row_count).sum
  let queryErrors := results.filterMap Prod.snd
  { tables := tableStats.mergeSort byCountDesc
    totalRecords := totalRecords
    queryErrors := queryErrors }

/-- The status column of the `functionsList` built by
`fetchFunctionStatuses` in `EdgeFunctionMonitor` (vite bundle lines
116-162), in source order, from the nine parallel reads: six
most-recent-timestamp rows fed to `getStatus`, the `tasks` / `meetings`
row presence checks, and the `profiles` head count. -/
def fetchFunctionStatusesCore
    (keepAliveRow emailRow bounceRow replyRow backupRow securityRow
      tasksRow meetingsRow : Option (Option String))
    (profilesCount : Nat)
    (parse : String → Option Int) (nowMs : Int) : List (String × StatusLabel) :=
  let keepAliveStatus := getStatus keepAliveRow parse nowMs
  let emailStatus := getStatus emailRow parse nowMs
  let bounceStatus := getStatus bounceRow parse nowMs
  let replyStatus := getStatus replyRow parse nowMs
  let backupStatus := getStatus backupRow parse nowMs
  let securityStatus := getStatus securityRow parse nowMs
  [("keep-alive", keepAliveStatus.status),
   ("create-backup", backupStatus.status),
   ("restore-backup", .unknown),
   ("security-monitor", securityStatus.status),
   ("user-admin", if profilesCount ≠ 0 then .active else .unknown),
   ("send-email", emailStatus.status),
   ("process-bounce-checks", bounceStatus.status),
   ("process-email-replies", replyStatus.status),
   ("track-email-open", emailStatus.status),
   ("track-email-click", emailStatus.status),
   ("mark-email-bounced", bounceStatus.status),
   ("sync-email-bounces", .deprecated),
   ("backfill-message-ids", .deprecated),
   ("send-task-reminders", if tasksRow.isSome then .active else .unknown),
   ("send-task-notification", if tasksRow.isSome then .active else .unknown),
   ("create-teams-meeting", if meetingsRow.isSome then .active else .unknown),
   ("update-teams-meeting", .unknown),
   ("cancel-teams-meeting", .unknown),
   ("fetch-user-display-names", .active),
   ("get-user-names", .active),
   ("sync-profile-names", if profilesCount ≠ 0 then .active else .unknown)]

/-! Component-state step functions for the two keep-alive monitors: the
source calls `setKeepAlive` / `setStats` with a freshly built value and
never reads the previous state. -/

/-- One fetch cycle of the CronJobMonitoring keep-alive state. -/
def cronMonitorStep (_prev : CronKeepAlive) (qerr : Option String)
    (row : Option (Option String)) (parse : String → Option Int)
    (nowMs : Int) : CronKeepAlive :=
  cronFetchKeepAlive qerr row parse nowMs

/-- One fetch cycle of the SystemStatusSettings keep-alive view. -/
def systemMonitorStep (_prev : KeepAliveView) (row : Option (Option String))
    (parse : String → Option Int) (nowMs : Int) : KeepAliveView :=
  systemFetchKeepAlive row parse nowMs

/-! The dashboard-customization modal (`DashboardCustomizeModal`). -/

/-- A widget visibility entry (the React `icon` node is omitted). -/
structure DashboardWidget where
  key : String
  label : String
  visible : Bool
  deriving DecidableEq

/-- `DEFAULT_WIDGETS`: the seven canonical widgets, in source order. -/
def DEFAULT_WIDGETS : List DashboardWidget :=
  [⟨"leads", "My Leads", true⟩,
   ⟨"contacts", "My Contacts", true⟩,
   ⟨"deals", "My Deals", true⟩,
   ⟨"actionItems", "Action Items", true⟩,
   ⟨"performance", "My Performance", true⟩,
   ⟨"quickActions", "Quick Actions", true⟩,
   ⟨"leadStatus", "Lead Status Overview", true⟩]

/-- The `useEffect` initializer: each default widget's visibility is set
from membership of its key in the incoming `visibleWidgets` prop, which
may hold arbitrary strings. -/
def initialWidgets (visibleWidgets : List String) : List DashboardWidget :=
  DEFAULT_WIDGETS.map fun w => { w with visible := visibleWidgets.contains w.key }

/-- `toggleWidget`: flip the visibility of the entries whose key matches. -/
def toggleWidget (key : String) (prev : List DashboardWidget) : List DashboardWidget :=
  prev.map fun w => if w.key = key then { w with visible := !w.visible } else w

/-- `handleSave`: the list of visible keys passed to `onSave`. -/
def handleSave (widgets : List DashboardWidget) : List String :=
  (widgets.filter fun w => w.visible).map fun w => w.key

/-- Claim C6: a failed collection read never blocks or discards the other
reads.  For `fetchSystemStats`: the table list is (up to the final sort)
exactly one entry per configured table, each computed from that table's
own query outcome alone, and a failed query contributes `row_count` 0 plus
an error message.  For `fetchFunctionStatuses`: the full 21-entry list is
always produced, a failed (`none`) keep-alive read yields `unknown` for
its own entry, and every other entry is unchanged by any substitution of
the keep-alive read. -/
theorem queryFailuresAreIsolated :
    (∀ db : String → QueryOutcome,
       (fetchSystemStatsCore db).tables.Perm
         (TABLE_CONFIG.map fun n => (countForTable n (db n)).1)) ∧
    (∀ n m, countForTable n (QueryOutcome.dbError m)
        = (⟨n, 0⟩, some (n ++ ": " ++ m))) ∧
    (∀ n m, countForTable n (QueryOutcome.thrown m)
        = (⟨n, 0⟩, some (n ++ ": " ++ m))) ∧
    (∀ keepAliveRow keepAliveRow' emailRow bounceRow replyRow backupRow
        securityRow tasksRow meetingsRow : Option (Option String),
     ∀ profilesCount : Nat, ∀ parse : String → Option Int, ∀ nowMs : Int,
       (fetchFunctionStatusesCore keepAliveRow emailRow bounceRow replyRow
           backupRow securityRow tasksRow meetingsRow profilesCount parse
           nowMs).length = 21 ∧
       (fetchFunctionStatusesCore none emailRow bounceRow replyRow backupRow
           securityRow tasksRow meetingsRow profilesCount parse nowMs).head?
         = some ("keep-alive", StatusLabel.unknown) ∧
       (fetchFunctionStatusesCore keepAliveRow emailRow bounceRow replyRow
           backupRow securityRow tasksRow meetingsRow profilesCount parse
           nowMs).tail
         = (fetchFunctionStatusesCore keepAliveRow' emailRow bounceRow replyRow
             backupRow securityRow tasksRow meetingsRow profilesCount parse
             nowMs).tail) := by
  refine ⟨fun db => ?_, fun n m => rfl, fun n m => rfl, ?_⟩
  · have h := List.mergeSort_perm
      ((TABLE_CONFIG.map fun n => countForTable n (db n)).map Prod.fst) byCountDesc
    simpa [List.map_map] using h
  · intro keepAliveRow keepAliveRow' emailRow bounceRow replyRow backupRow
      securityRow tasksRow meetingsRow profilesCount parse nowMs
    exact ⟨rfl, rfl, rfl⟩

/-- Claim C7: the recency classifier is deterministic and stateless: both
keep-alive monitors compute their new state from the fetched row, the
parser and the evaluation instant alone — the previous component state is
never read — and two calls on the same inputs agree. -/
theorem classifierDeterministicAndStateless :
    (∀ p p' : CronKeepAlive, ∀ qerr row parse nowMs,
       cronMonitorStep p qerr row parse nowMs = cronMonitorStep p' qerr row parse nowMs) ∧
    (∀ p p' : KeepAliveView, ∀ row parse nowMs,
       systemMonitorStep p row parse nowMs = systemMonitorStep p' row parse nowMs) ∧
    (∀ row parse nowMs,
       systemFetchKeepAlive row parse nowMs = systemFetchKeepAlive row parse nowMs) ∧
    (∀ qerr row parse nowMs,
       cronFetchKeepAlive qerr row parse nowMs = cronFetchKeepAlive qerr row parse nowMs) :=
  ⟨fun _ _ _ _ _ _ => rfl, fun _ _ _ _ _ => rfl,
   fun _ _ _ => rfl, fun _ _ _ _ => rfl⟩

/-- Claim C8: for every incoming `visibleWidgets` prop (any strings, any
order) and every sequence of `toggleWidget` operations, the key list that
`handleSave` passes to `onSave` is a duplicate-free subsequence of the
seven canonical widget keys in `DEFAULT_WIDGETS` order; unrecognized keys
are never emitted. -/
theorem handleSaveEmitsCanonicalSubsequence (visibleWidgets ops : List String) :
    (handleSave (ops.foldl (fun ws k => toggleWidget k ws)
        (initialWidgets visibleWidgets))).Sublist
      (DEFAULT_WIDGETS.map DashboardWidget.key) ∧
    (handleSave (ops.foldl (fun ws k => toggleWidget k ws)
        (initialWidgets visibleWidgets))).Nodup := by
  have hkeys : ∀ (k : String) (ws : List DashboardWidget),
      (toggleWidget k ws).map DashboardWidget.key = ws.map DashboardWidget.key := by
    intro k ws
    simp only [toggleWidget, List.map_map]
    exact List.map_congr_left fun w _ => by by_cases h : w.key = k <;> simp [h]
  have hinit : (initialWidgets visibleWidgets).map DashboardWidget.key
      = DEFAULT_WIDGETS.map DashboardWidget.key := by
    simp only [initialWidgets, List.map_map]
    exact List.map_congr_left fun w _ => rfl
  have hinv : ∀ (l : List String) (ws : List DashboardWidget),
      ws.map DashboardWidget.key = DEFAULT_WIDGETS.map DashboardWidget.key →
      (l.foldl (fun ws k => toggleWidget k ws) ws).map DashboardWidget.key
        = DEFAULT_WIDGETS.map DashboardWidget.key := by
    intro l
    induction l with
    | nil => exact fun ws h => h
    | cons k tl ih =>
      intro ws h
      exact ih _ ((hkeys k ws).trans h)
  have hmain := hinv ops (initialWidgets visibleWidgets) hinit
  have hsub : (handleSave (ops.foldl (fun ws k => toggleWidget k ws)
      (initialWidgets visibleWidgets))).Sublist
        (DEFAULT_WIDGETS.map DashboardWidget.key) := by
    rw [← hmain]
    exact List.Sublist.map DashboardWidget.key (List.filter_sublist _)
  exact ⟨hsub, List.Nodup.sublist hsub (by decide)⟩

/-- Claim C9: `toggleWidget k` preserves the list's length and order,
flips exactly the `visible` flag of the entries whose key is `k`, leaves
every other entry unchanged, and is an involution. -/
theorem toggleWidgetLocalAndInvolutive (key : String) (ws : List DashboardWidget) :
    (toggleWidget key ws).length = ws.length ∧
    (∀ i : Nat, (toggleWidget key ws)[i]? = (ws[i]?).map
        (fun w => if w.key = key then { w with visible := !w.visible } else w)) ∧
    toggleWidget key (toggleWidget key ws) = ws := by
  refine ⟨by simp [toggleWidget], fun i => by simp [toggleWidget], ?_⟩
  have hw : ∀ w : DashboardWidget,
      (fun w => if w.key = key then { w with visible := !w.visible } else w)
        ((fun w => if w.key = key then { w with visible := !w.visible } else w) w) = w := by
    intro w
    rcases w with ⟨k, lbl, v⟩
    by_cases h : k = key <;> simp [h]
  calc (toggleWidget key ws).map
        (fun w => if w.key = key then { w with visible := !w.visible } else w)
      = ws.map ((fun w => if w.key = key then { w with visible := !w.visible } else w)
          ∘ (fun w => if w.key = key then { w with visible := !w.visible } else w)) := by
        simp only [toggleWidget, List.map_map]
    _ = ws.map id := List.map_congr_left fun w _ => hw w
    _ = ws := List.map_id ws

/-- Claim C10: after a successful `fetchSystemStats`, `totalRecords` is
the sum of `row_count` over the table list, the list has exactly one entry
per configured table (nine entries, a permutation of `TABLE_CONFIG`), and
it is sorted in non-increasing order of `row_count`. -/
theorem fetchSystemStatsPostconditions (db : String → QueryOutcome) :
    (fetchSystemStatsCore db).totalRecords
        = ((fetchSystemStatsCore db).tables.map TableStat.row_count).sum ∧
    (fetchSystemStatsCore db).tables.length = 9 ∧
    ((fetchSystemStatsCore db).tables.map TableStat.table_name).Perm TABLE_CONFIG ∧
    List.Pairwise (fun a b => b.row_count ≤ a.row_count)
      (fetchSystemStatsCore db).tables := by
  have hperm : (fetchSystemStatsCore db).tables.Perm
      ((TABLE_CONFIG.map fun n => countForTable n (db n)).map Prod.fst) :=
    List.mergeSort_perm _ byCountDesc
  have hnames : (((TABLE_CONFIG.map fun n => countForTable n (db n)).map
      Prod.fst).map TableStat.table_name) = TABLE_CONFIG := by
    rw [List.map_map, List.map_map]
    refine (List.map_congr_left fun n _ => ?_).trans (List.map_id _)
    simp only [Function.comp_apply, id_eq]
    cases db n <;> rfl
  refine ⟨((List.Perm.map TableStat.row_count hperm).sum_eq).symm, ?_, ?_, ?_⟩
  · rw [hperm.length_eq]
    rfl
  · have h := List.Perm.map TableStat.table_name hperm
    rwa [hnames] at h
  · have htrans : ∀ a b c : TableStat, byCountDesc a b = true →
        byCountDesc b c = true → byCountDesc a c = true := by
      intro a b c hab hbc
      simp only [byCountDesc, decide_eq_true_eq] at *
      omega
    have htotal : ∀ a b : TableStat, (byCountDesc a b || byCountDesc b a) = true := by
      intro a b
      simp only [byCountDesc, Bool.or_eq_true, decide_eq_true_eq]
      omega
    have hp := List.sorted_mergeSort htrans htotal
      ((TABLE_CONFIG.map fun n => countForTable n (db n)).map Prod.fst)
    exact hp.imp fun h => by simpa [byCountDesc] using h
